import Mathlib

/-!
Formal model of the SharaSpot kWh meter-reading pipeline
(`src/dist/utils/ocr-processor.js`, `src/dist/config/ocr-config.js`,
`src/dist/services/photo-verification.js`).

Modelling conventions:
* JavaScript numbers that flow through the validators are modelled as exact
  rationals (`ℚ`); a possibly non-finite number (`NaN`, `±Infinity`, or a
  failed `parseFloat`) is `Option ℚ` with `none` for the non-finite case,
  since `validateReading` collapses all of those into one failure branch.
* The decimal-place count that the source computes from
  `reading.toString().split(".")` is modelled by divisibility: a rational
  `q` prints with at most `d` decimal places iff `q * 10 ^ d` is an
  integer, i.e. `q.den ∣ 10 ^ d`.
* OCR text is `List Char`.  The regex pipeline of `extractReadingFromText`
  only ever captures strings of shape `\d{2,6}(\.\d{1,3})?`, so the
  numeric value of a capture is represented exactly as an integer count of
  thousandths of a kWh (`ℕ`, field `value`); `milliToQ` recovers the
  rational value.
* Error and warning strings whose source text interpolates runtime values
  are modelled by fixed representative strings.
-/

namespace SharaSpot

/- ===== Configuration (src/dist/config/ocr-config.js) ===== -/

/-- `OCR_CONFIG.VALID_RANGE.min` -/
def VALID_RANGE_min : ℚ := 10

/-- `OCR_CONFIG.VALID_RANGE.max` -/
def VALID_RANGE_max : ℚ := 999999

/-- `OCR_CONFIG.MAX_DECIMAL_PLACES` -/
def MAX_DECIMAL_PLACES : ℕ := 3

/-- `OCR_CONFIG.CONSUMPTION_RANGE.min` (0.1 kWh) -/
def CONSUMPTION_RANGE_min : ℚ := 1 / 10

/-- `OCR_CONFIG.CONSUMPTION_RANGE.max` (200 kWh) -/
def CONSUMPTION_RANGE_max : ℚ := 200

/-- `OCR_CONFIG.MIN_OCR_CONFIDENCE` -/
def MIN_OCR_CONFIDENCE : ℚ := 60

/-- `OCR_CONFIG.GOOGLE_VISION.retry.maxAttempts` -/
def GOOGLE_VISION_retry_maxAttempts : ℕ := 3

/- ===== Reading validator (ocr-processor.js, validateReading) ===== -/

/-- Result shape of `validateReading`: `{valid, error?}`. -/
structure ValidationOutcome where
  valid : Bool
  error : Option String := none
deriving DecidableEq, Repr

/-- `q` has at most `d` decimal places: its shortest decimal representation
(what `Number.prototype.toString` produces for the decimal values handled
here) needs at most `d` fractional digits, i.e. `q * 10 ^ d` is an integer. -/
def decimalPlacesLe (q : ℚ) (d : ℕ) : Prop := q.den ∣ 10 ^ d

instance (q : ℚ) (d : ℕ) : Decidable (decimalPlacesLe q d) :=
  Nat.decidable_dvd q.den (10 ^ d)

/-- `validateReading(reading)` from ocr-processor.js lines 379-403.
`none` is the non-number / `NaN` / non-finite input, rejected by the first
guard of the source. -/
def validateReading : Option ℚ → ValidationOutcome
  | none => { valid := false, error := some "Invalid number format" }
  | some reading =>
    if reading ≤ 0 then
      { valid := false, error := some "Reading must be positive" }
    else if reading < VALID_RANGE_min then
      { valid := false, error := some "Reading too small (minimum: 10 kWh)" }
    else if VALID_RANGE_max < reading then
      { valid := false, error := some "Reading too large (maximum: 999999 kWh)" }
    else if decimalPlacesLe reading MAX_DECIMAL_PLACES then
      { valid := true }
    else
      { valid := false, error := some "Too many decimal places" }

/- ===== Consumption calculator (ocr-processor.js, calculateConsumption) ===== -/

/-- Result shape of `calculateConsumption`: `{valid, error?, consumption?}`. -/
structure ConsumptionResult where
  valid : Bool
  error : Option String := none
  consumption : Option ℚ := none
deriving DecidableEq, Repr

/-- `Math.round(x)`: round half toward positive infinity. -/
def jsRound (x : ℚ) : ℤ := ⌊x + 1 / 2⌋

/-- `Math.round(cons * 100) / 100` — rounding to 2 decimal places. -/
def roundTo2 (x : ℚ) : ℚ := (jsRound (x * 100) : ℚ) / 100

/-- `calculateConsumption(start, end)` from ocr-processor.js lines 404-434.
The source parameter `end` is named `endR` (`end` is reserved in Lean).
The final match arm is unreachable: both readings validated, hence both are
finite (`some`). -/
def calculateConsumption (start endR : Option ℚ) : ConsumptionResult :=
  let v1 := validateReading start
  let v2 := validateReading endR
  if v1.valid = false then
    { valid := false, error := some ("Start reading: " ++ v1.error.getD "") }
  else if v2.valid = false then
    { valid := false, error := some ("End reading: " ++ v2.error.getD "") }
  else
    match start, endR with
    | some s, some e =>
      if e ≤ s then
        { valid := false, error := some "End reading must be greater than start reading" }
      else
        let cons := e - s
        if cons < CONSUMPTION_RANGE_min then
          { valid := false, error := some "Consumption too low (< 0.1 kWh)" }
        else if CONSUMPTION_RANGE_max < cons then
          { valid := false, error := some "Consumption too high (> 200 kWh)" }
        else
          { valid := true, consumption := some (roundTo2 cons) }
    | _, _ => { valid := false, error := some "Invalid number format" }

/- ===== Context validation (ocr-processor.js, validateConsumptionWithContext) ===== -/

/-- Result shape of `validateConsumptionWithContext`. -/
structure ContextValidation where
  valid : Bool
  error : Option String := none
  warnings : Option (List String) := none
deriving DecidableEq, Repr

/-- Source: "Average power very close to charger limit – verify readings". -/
def powerWarning : String := "Average power very close to charger limit - verify readings"

/-- Source interpolates the efficiency percentage into this warning. -/
def efficiencyWarning : String := "Low efficiency - may indicate incomplete charge"

/-- The JS guard `batteryCapacityKwh && consumption > batteryCapacityKwh * 1.05`:
an absent (`undefined`) or zero (falsy) capacity skips the check. -/
def batteryExceeded (batteryCapacityKwh : Option ℚ) (consumption : ℚ) : Bool :=
  match batteryCapacityKwh with
  | some b => decide (b ≠ 0) && decide (b * (105 / 100) < consumption)
  | none => false

/-- `validateConsumptionWithContext(consumption, durationMinutes,
chargerPowerKw, batteryCapacityKwh?)` from ocr-processor.js lines 435-460. -/
def validateConsumptionWithContext (consumption durationMinutes chargerPowerKw : ℚ)
    (batteryCapacityKwh : Option ℚ) : ContextValidation :=
  let durationHours := durationMinutes / 60
  let theoreticalMax := durationHours * chargerPowerKw * (95 / 100)
  if theoreticalMax * (115 / 100) < consumption then
    { valid := false, error := some "Consumption exceeds theoretical maximum" }
  else if batteryExceeded batteryCapacityKwh consumption then
    { valid := false, error := some "Consumption exceeds battery capacity" }
  else
    let avgPower := consumption / durationHours
    let w1 : List String := if chargerPowerKw * (98 / 100) < avgPower then [powerWarning] else []
    let efficiency := consumption / (durationHours * chargerPowerKw) * 100
    let w2 : List String := if efficiency < 60 then [efficiencyWarning] else []
    let warnings := w1 ++ w2
    { valid := true, warnings := if warnings.isEmpty then none else some warnings }

/- ===== Wrapper (photo-verification.js, validateConsumption) ===== -/

/-- Result shape of `PhotoVerificationService.validateConsumption`. -/
structure ConsumptionValidation where
  isValid : Bool
  consumption : Option ℚ := none
  warnings : Option (List String) := none
  error : Option String := none
deriving DecidableEq, Repr

/-- Source: "Duration too short for validation - using reading only". -/
def durationTooShortWarning : String := "Duration too short for validation - using reading only"

/-- `validateConsumption(sessionId, endReading)` from photo-verification.js
lines 333-366, with the database-derived inputs made explicit:
`startMeterReading` is the parsed stored start reading (`none` when the
session has none), `durationMinutes` is the floored elapsed minutes (0 when
no start timestamp exists), and `maxPowerUsed` feeds the JS default
`session.maxPowerUsed || 50` (falsy, i.e. absent or zero, becomes 50).
No battery capacity is ever passed by this wrapper. -/
def validateConsumption (startMeterReading : Option ℚ) (endReading : ℚ)
    (durationMinutes : ℤ) (maxPowerUsed : Option ℚ) : ConsumptionValidation :=
  match startMeterReading with
  | none => { isValid := false, error := some "Start reading not found" }
  | some startReading =>
    let result := calculateConsumption (some startReading) (some endReading)
    if result.valid = false then
      { isValid := false, error := result.error }
    else if durationMinutes < 1 then
      { isValid := true, consumption := result.consumption,
        warnings := some [durationTooShortWarning] }
    else
      let chargerPowerKw : ℚ :=
        match maxPowerUsed with
        | some p => if p = 0 then 50 else p
        | none => 50
      let cv := validateConsumptionWithContext (result.consumption.getD 0)
        (durationMinutes : ℚ) chargerPowerKw none
      { isValid := cv.valid, consumption := result.consumption,
        warnings := cv.warnings, error := cv.error }

/- ===== Text cleaning (ocr-processor.js, extractReadingFromText lines 290-301) ===== -/

/-- `String.prototype.trim()` on the character classes that occur here. -/
def trimSpaces (s : List Char) : List Char :=
  ((s.dropWhile Char.isWhitespace).reverse.dropWhile Char.isWhitespace).reverse

/-- One pass of `replace(/\s+/g, " ")`: collapse runs of spaces (after the
first replace of the source, the only whitespace left is the space). -/
def collapseSpacesAux : List Char → Bool → List Char
  | [], _ => []
  | c :: rest, prevSpace =>
    if c = ' ' then
      if prevSpace then collapseSpacesAux rest true
      else ' ' :: collapseSpacesAux rest true
    else c :: collapseSpacesAux rest false

def collapseSpaces (s : List Char) : List Char := collapseSpacesAux s false

/-- The fixed OCR character-confusion substitutions of the source
(`O→0`, `I→1`, `L→1`, `S→5`, `Z→2`, `B→8`), applied after upper-casing. -/
def ocrSubstitute (c : Char) : Char :=
  if c = 'O' then '0'
  else if c = 'I' then '1'
  else if c = 'L' then '1'
  else if c = 'S' then '5'
  else if c = 'Z' then '2'
  else if c = 'B' then '8'
  else c

/-- The `clean` normalisation of `extractReadingFromText`:
newline/tab to space, collapse whitespace, trim, upper-case, confusion map. -/
def cleanText (text : List Char) : List Char :=
  let s1 := text.map fun c => if c = '\n' ∨ c = '\r' ∨ c = '\t' then ' ' else c
  let s2 := trimSpaces (collapseSpaces s1)
  (s2.map Char.toUpper).map ocrSubstitute

/- ===== The numeric-token matcher `\d{2,6}(?:\.\d{1,3})?` ===== -/

/-- Greedy match of `\d{2,6}(?:\.\d{1,3})?` at the head of `s`; returns the
integer digits and the fraction digits of the capture.  The optional
fraction consumes the dot only when at least one digit follows it.  All
quantifiers here are safely greedy: every element of the pattern consumes a
character class disjoint from its successors, so no regex backtracking can
produce a different match. -/
def matchNumber (s : List Char) : Option (List Char × List Char) :=
  let ds := (s.takeWhile Char.isDigit).take 6
  if ds.length < 2 then none
  else
    match s.drop ds.length with
    | '.' :: r2 =>
      let fs := (r2.takeWhile Char.isDigit).take 3
      if fs.length = 0 then some (ds, []) else some (ds, fs)
    | _ => some (ds, [])

/-- Length of the full regex match (`match[0]`) for a capture. -/
def matchLen (ds fs : List Char) : ℕ :=
  ds.length + (if fs.isEmpty then 0 else fs.length + 1)

/-- The captured number in thousandths of a kWh (`parseFloat(match[1])`
is exact on `\d{2,6}(\.\d{1,3})?` captures). -/
def digitsToNat (ds : List Char) : ℕ :=
  ds.foldl (fun n c => 10 * n + (c.toNat - 48)) 0

def parseMilli (ds fs : List Char) : ℕ :=
  digitsToNat (ds ++ fs) * 10 ^ (3 - fs.length)

/-- `milliToQ v` is the rational kWh value of a capture stored in
thousandths. -/
def milliToQ (v : ℕ) : ℚ := (v : ℚ) / 1000

/-- `isValidReading(num)` from ocr-processor.js lines 373-378, on the exact
thousandth representation: `10 ≤ num ≤ 999999` in kWh. -/
def isValidReadingMilli (v : ℕ) : Bool :=
  decide (10000 ≤ v) && decide (v ≤ 999999000)

/- ===== The anchored kWh patterns (ocr-processor.js lines 302-318) ===== -/

/-- Consume one optional literal character (`c?` in the regex). -/
def consumeOpt (c : Char) (s : List Char) : List Char :=
  match s with
  | c2 :: rest => if c2 = c then rest else c2 :: rest
  | [] => []

/-- Consume `\s*` (the cleaned text only contains the plain space). -/
def dropSpaces (s : List Char) : List Char := s.dropWhile (· = ' ')

/-- Consume the optional separator class `[:\-=]?`. -/
def consumePunct (s : List Char) : List Char :=
  match s with
  | c :: rest => if c = ':' ∨ c = '-' ∨ c = '=' then rest else c :: rest
  | [] => []

/-- Pattern 1, `(?:K?W?H?\s*[:\-=]?\s*)(\d{2,6}(?:\.\d{1,3})?)`, tried at
one position.  Note every anchor component is optional. -/
def kwhPattern1At (s : List Char) : Option (List Char × List Char) :=
  let s1 := consumeOpt 'K' s
  let s2 := consumeOpt 'W' s1
  let s3 := consumeOpt 'H' s2
  let s4 := dropSpaces s3
  let s5 := consumePunct s4
  let s6 := dropSpaces s5
  matchNumber s6

/-- Pattern 2, `(\d{2,6}(?:\.\d{1,3})?)\s*(?:K?W?H?)`, tried at one
position: the suffix `\s*(?:K?W?H?)` can always match empty, so only the
number part constrains the match. -/
def kwhPattern2At (s : List Char) : Option (List Char × List Char) :=
  matchNumber s

/-- Patterns 3-5, `KEYWORD[:\s]+(\d{2,6}(?:\.\d{1,3})?)`, tried at one
position: the literal keyword, then one or more `:`/space, then the number. -/
def keywordPatternAt (kw : List Char) (s : List Char) : Option (List Char × List Char) :=
  if s.take kw.length = kw then
    let rest := s.drop kw.length
    let seps := rest.takeWhile fun c => c == ':' || c == ' '
    if seps.length = 0 then none
    else matchNumber (rest.drop seps.length)
  else none

/-- Leftmost match: `String.prototype.match` tries each start position from
the left and returns the first success. -/
def scanFirst (f : List Char → Option (List Char × List Char)) :
    List Char → Option (List Char × List Char)
  | [] => f []
  | c :: rest =>
    match f (c :: rest) with
    | some r => some r
    | none => scanFirst f rest

/-- The capture (if any) of each of the five `kwhPatterns`, in source order. -/
def kwhPatternCaptures (clean : List Char) : List (Option (List Char × List Char)) :=
  [scanFirst kwhPattern1At clean,
   scanFirst kwhPattern2At clean,
   scanFirst (keywordPatternAt ("ENERGY".toList)) clean,
   scanFirst (keywordPatternAt ("METER".toList)) clean,
   scanFirst (keywordPatternAt ("READING".toList)) clean]

/-- The `for (const pattern of kwhPatterns)` loop: the first capture whose
parsed value passes `isValidReading` is returned. -/
def anchorLoop : List (Option (List Char × List Char)) → Option ℕ
  | [] => none
  | none :: rest => anchorLoop rest
  | some (ds, fs) :: rest =>
    let num := parseMilli ds fs
    if isValidReadingMilli num then some num else anchorLoop rest

/- ===== Fallback candidate enumeration (ocr-processor.js lines 335-364) ===== -/

/-- One `ReadingCandidate`: value in thousandths of a kWh, heuristic score,
match index, and the ±20-character context window. -/
structure Candidate where
  value : ℕ
  confidence : ℕ
  position : ℕ
  context : List Char
deriving DecidableEq, Repr

def isPrefixL : List Char → List Char → Bool
  | [], _ => true
  | _ :: _, [] => false
  | a :: as, b :: bs => a == b && isPrefixL as bs

def isInfixL (needle : List Char) : List Char → Bool
  | [] => isPrefixL needle []
  | c :: rest => isPrefixL needle (c :: rest) || isInfixL needle rest

/-- `/K?W?H|ENERGY|METER|READING|CONSUMPTION/i.test(context)`.  Both `K` and
`W` in the first alternative are optional, so that alternative succeeds
wherever a bare `H` occurs; the cleaned text is already upper-case, which
discharges the `i` flag. -/
def meterKeywordTest (ctx : List Char) : Bool :=
  ctx.contains 'H'
    || isInfixL ("ENERGY".toList) ctx
    || isInfixL ("METER".toList) ctx
    || isInfixL ("READING".toList) ctx
    || isInfixL ("CONSUMPTION".toList) ctx

/-- Build the candidate pushed for a match of value `parseMilli ds fs` at
index `i` of `clean`: base score 50, +30 for a nearby meter keyword,
+10 for a decimal point in the capture, +10 for the 100-10000 kWh range. -/
def candidateAt (clean : List Char) (i : ℕ) (ds fs : List Char) : Candidate :=
  let value := parseMilli ds fs
  let start := i - 20
  let stop := min clean.length (i + matchLen ds fs + 20)
  let context := (clean.drop start).take (stop - start)
  let c1 : ℕ := 50 + (if meterKeywordTest context then 30 else 0)
  let c2 : ℕ := c1 + (if fs.isEmpty then 0 else 10)
  let c3 : ℕ := c2 + (if 100000 ≤ value ∧ value ≤ 10000000 then 10 else 0)
  { value := value, confidence := c3, position := i, context := context }

/-- The `while ((match = numberPattern.exec(text)) !== null)` loop of
`extractNumberCandidates`: a `/g` regex resumes at the end of the previous
match (`lastIndex`), and otherwise advances one position at a time.  The
loop is written with an explicit step budget so the recursion is
structural; every iteration advances `i` by at least one, and the loop
stops as soon as `clean.length ≤ i`, so a budget of `clean.length` steps
(as supplied by `extractNumberCandidates`) is never exhausted first: once
the budget is gone, `clean.length ≤ i` already holds and the loop would
have returned `[]` anyway. -/
def scanCandidates (clean : List Char) : ℕ → ℕ → List Candidate
  | _, 0 => []
  | i, fuel + 1 =>
    if clean.length ≤ i then []
    else
      match matchNumber (clean.drop i) with
      | some (ds, fs) =>
        let cand := candidateAt clean i ds fs
        let rest := scanCandidates clean (i + matchLen ds fs) fuel
        if isValidReadingMilli cand.value then cand :: rest else rest
      | none => scanCandidates clean (i + 1) fuel

/-- `extractNumberCandidates(text)` from ocr-processor.js lines 335-364. -/
def extractNumberCandidates (clean : List Char) : List Candidate :=
  scanCandidates clean 0 clean.length

/- ===== Ranking (ocr-processor.js, rankCandidates lines 365-372) ===== -/

/-- `a` may precede `b` under the sort comparator
`(a, b) => b.confidence !== a.confidence ? b.confidence - a.confidence
: b.value - a.value` (comparator value ≤ 0): descending score, ties broken
by descending numeric value. -/
def rankLe (a b : Candidate) : Prop :=
  b.confidence < a.confidence ∨ (b.confidence = a.confidence ∧ b.value ≤ a.value)

instance : DecidableRel rankLe := fun a b => by
  unfold rankLe; infer_instance

instance : IsTotal Candidate rankLe :=
  ⟨by intro a b; unfold rankLe; omega⟩

instance : IsTrans Candidate rankLe :=
  ⟨by intro a b c; unfold rankLe; omega⟩

/-- `rankCandidates(candidates)`: `Array.prototype.sort` with a consistent
comparator produces the unique stable sorted reordering, which is what a
stable insertion sort computes. -/
def rankCandidates (candidates : List Candidate) : List Candidate :=
  candidates.insertionSort rankLe

/- ===== extractReadingFromText (ocr-processor.js lines 290-334) ===== -/

/-- `extractReadingFromText(text)`: clean, try the five anchored patterns in
order (first in-range capture wins and returns immediately), otherwise
enumerate candidates; a single candidate is returned directly, several are
ranked and the top one returned, none yields `null`. -/
def extractReadingFromText (text : List Char) : Option ℕ :=
  let clean := cleanText text
  match anchorLoop (kwhPatternCaptures clean) with
  | some num => some num
  | none =>
    match extractNumberCandidates clean with
    | [] => none
    | [c] => some c.value
    | c1 :: c2 :: rest => (rankCandidates (c1 :: c2 :: rest)).head?.map fun c => c.value

/- ===== Confidence aggregation (ocr-processor.js, performOCR lines 213-289) ===== -/

/-- One entry of `result.textAnnotations`: its `description` text and
whether `boundingPoly.vertices` exists with exactly 4 vertices. -/
structure TextDetection where
  description : List Char
  quadBox : Bool
deriving DecidableEq, Repr

/-- `/\d/.test(text)` -/
def containsDigit (s : List Char) : Bool := s.any Char.isDigit

/-- `/kwh|energy|meter/i.test(text)`: case-insensitive substring search. -/
def kwTokenTest (s : List Char) : Bool :=
  let u := s.map Char.toUpper
  isInfixL ("KWH".toList) u || isInfixL ("ENERGY".toList) u || isInfixL ("METER".toList) u

/-- The per-token confidence of performOCR: base 70, +15 for a digit,
+10 for a kwh/energy/meter token, +5 for a 4-vertex bounding box. -/
def wordConfidence (d : TextDetection) : ℚ :=
  70 + (if containsDigit d.description then 15 else 0)
    + (if kwTokenTest d.description then 10 else 0)
    + (if d.quadBox then 5 else 0)

/-- `totalConfidence / confidentWords`, defaulting to 70 when the response
had no per-token detections (`confidentWords === 0`). -/
def avgConfidence (tokens : List TextDetection) : ℚ :=
  if 0 < tokens.length then ((tokens.map wordConfidence).sum) / (tokens.length : ℚ)
  else 70

/-- Outcome of one `performOCR` call on a response that the Vision API
returned without throwing: no text at all, hard failure on very low
aggregate confidence, or success. -/
inductive PerformOCROutcome
  | noText
  | veryLowConfidence (confidence : ℚ) (text : List Char)
  | ok (confidence : ℚ) (text : List Char)
deriving DecidableEq, Repr

/-- `performOCR` aggregation: the head detection is the aggregate block
(its `description` is the full text), the tail are the per-token
detections. -/
def performOCR (detections : List TextDetection) : PerformOCROutcome :=
  match detections with
  | [] => .noText
  | d0 :: tokens =>
    let fullText := d0.description
    let conf := avgConfidence tokens
    if conf < MIN_OCR_CONFIDENCE * (1 / 2) then .veryLowConfidence conf (trimSpaces fullText)
    else .ok conf (trimSpaces fullText)

/- ===== Escalation ladder (ocr-processor.js, extractKwhReading lines 22-95) ===== -/

/-- The three preprocessing strategies, in escalation order. -/
inductive Strategy
  | standard
  | aggressive
  | adaptive
deriving DecidableEq, Repr

/-- The JS result object of one `performOCR` call as consumed by
`extractKwhReading`. -/
structure OCRAttempt where
  success : Bool
  text : Option (List Char) := none
  confidence : Option ℚ := none
  error : Option String := none
deriving DecidableEq

/-- The retry guard `ocrResult.confidence && ocrResult.confidence <
OCR_CONFIG.MIN_OCR_CONFIDENCE`: an absent confidence and the falsy
confidence 0 both leave the guard false. -/
def lowConfRetry (r : OCRAttempt) : Bool :=
  match r.confidence with
  | none => false
  | some c => decide (c ≠ 0) && decide (c < MIN_OCR_CONFIDENCE)

/-- The sequence of `performOCR` calls `extractKwhReading` issues, in
order, when the attempt for each strategy returns the given result.
These are the only three call sites of `performOCR` in the source. -/
def escalationCalls (ocr : Strategy → OCRAttempt) : List Strategy :=
  let r1 := ocr .standard
  if lowConfRetry r1 then
    let r2 := ocr .aggressive
    if lowConfRetry r2 then [.standard, .aggressive, .adaptive]
    else [.standard, .aggressive]
  else [.standard]

/-- The `ocrResult` extractKwhReading holds after the ladder. -/
def escalationResult (ocr : Strategy → OCRAttempt) : OCRAttempt :=
  let r1 := ocr .standard
  if lowConfRetry r1 then
    let r2 := ocr .aggressive
    if lowConfRetry r2 then ocr .adaptive
    else r2
  else r1

/-- Result object of `extractKwhReading` (fields used by the callers). -/
structure ExtractKwhResult where
  success : Bool
  reading : Option ℚ := none
  confidence : Option ℚ := none
deriving DecidableEq

/-- The remainder of `extractKwhReading` (lines 40-84): success check,
reading extraction from the text, and validation.  Issues no further OCR
calls. -/
def extractKwhReading (ocr : Strategy → OCRAttempt) : ExtractKwhResult :=
  let ocrResult := escalationResult ocr
  if ocrResult.success = false then { success := false }
  else
    match extractReadingFromText (ocrResult.text.getD []) with
    | none => { success := false, confidence := ocrResult.confidence }
    | some m =>
      let reading := milliToQ m
      if (validateReading (some reading)).valid = false then
        { success := false, reading := some reading, confidence := ocrResult.confidence }
      else
        { success := true, reading := some reading, confidence := ocrResult.confidence }

/- ===== Verification state machine (photo-verification.js) ===== -/

/-- `state.type: 'start' | 'end'` (`'end'` is `finish` here, `end` being
reserved in Lean). -/
inductive VKind
  | start
  | finish
deriving DecidableEq, Repr

/-- `state.ocrProvider: 'vision' | 'manual'`. -/
inductive Provider
  | vision
  | manual
deriving DecidableEq, Repr

/-- `VerificationState` as stored in the per-user `states` map. -/
structure VerificationState where
  sessionId : ℕ
  type : VKind
  attemptCount : ℕ
  lastReading : Option ℚ := none
  lastConfidence : Option ℚ := none
  ocrProvider : Provider := .vision
deriving DecidableEq

/-- `initiateStartVerification` (photo-verification.js lines 30-49): the
fresh state stored for the user. -/
def initiateStartVerification (sessionId : ℕ) : VerificationState :=
  { sessionId := sessionId, type := .start, attemptCount := 0 }

/-- JS falsiness of an optional number (`!x`): absent or zero. -/
def jsFalsyNum : Option ℚ → Bool
  | none => true
  | some q => decide (q = 0)

/-- Where `handleStartPhoto` routes after processing. -/
inductive PhotoRoute
  | notExpecting
  | manualFallback
  | retryPrompt
  | awaitingConfirmation
deriving DecidableEq, Repr

/-- Outcome of one `handleStartPhoto` call: the state left in the map,
whether `ocrProcessor.extractKwhReading` was invoked for this submission,
and the route taken. -/
structure PhotoStep where
  state : Option VerificationState
  ocrCalled : Bool
  route : PhotoRoute
deriving DecidableEq

/-- `handleStartPhoto(userWhatsapp, imageBuffer)` (photo-verification.js
lines 50-104) as a transition on the user's state, with the OCR outcome
supplied as an oracle.  `handleOCRFailure` / `handleLowConfidence`
(lines 455-511) fall back to manual entry exactly when the incremented
attempt count has reached `maxAttempts`. -/
def handleStartPhoto (state? : Option VerificationState) (ocrResult : ExtractKwhResult) :
    PhotoStep :=
  match state? with
  | none => { state := none, ocrCalled := false, route := .notExpecting }
  | some st =>
    if st.type ≠ VKind.start then { state := some st, ocrCalled := false, route := .notExpecting }
    else
      let st1 := { st with attemptCount := st.attemptCount + 1 }
      if ocrResult.success = false ∨ jsFalsyNum ocrResult.reading = true then
        if GOOGLE_VISION_retry_maxAttempts ≤ st1.attemptCount then
          { state := some st1, ocrCalled := true, route := .manualFallback }
        else
          { state := some st1, ocrCalled := true, route := .retryPrompt }
      else
        let confidence := ocrResult.confidence.getD 0
        if confidence < MIN_OCR_CONFIDENCE then
          if GOOGLE_VISION_retry_maxAttempts ≤ st1.attemptCount then
            { state := some st1, ocrCalled := true, route := .manualFallback }
          else
            { state := some st1, ocrCalled := true, route := .retryPrompt }
        else
          { state := some { st1 with
              lastReading := ocrResult.reading,
              lastConfidence := some confidence },
            ocrCalled := true, route := .awaitingConfirmation }

/-- `handleManualEntry(userWhatsapp, input)` (photo-verification.js lines
303-332): `reading` is the `parseFloat(input.trim())` result (`none` for
`NaN`), `consumptionValid` the outcome of the end-reading consumption
check.  Returns the state left in the map and the boolean the source
returns.  The attempt counter is not touched. -/
def handleManualEntry (state? : Option VerificationState) (reading : Option ℚ)
    (consumptionValid : Bool) : Option VerificationState × Bool :=
  match state? with
  | none => (none, false)
  | some st =>
    let validation := validateReading reading
    if validation.valid = false then (some st, false)
    else if st.type = VKind.finish ∧ consumptionValid = false then (some st, false)
    else
      (some { st with
          lastReading := reading,
          lastConfidence := some 0,
          ocrProvider := .manual }, true)

/- ===== Concrete fixtures used by individual theorems ===== -/

/-- An OCR run whose standard attempt detects no text: `performOCR` then
returns `{success: false, error: 'No text detected in image',
confidence: 0}`. -/
def ocrNoTextRun : Strategy → OCRAttempt := fun _ =>
  { success := false, error := some "No text detected in image", confidence := some 0 }

/-- An OCR run whose three strategies come back with confidences 55, 58
and 59. -/
def ocrLowRun : Strategy → OCRAttempt := fun s =>
  match s with
  | .standard => { success := true, text := some ("METER: 1245.8".toList), confidence := some 55 }
  | .aggressive => { success := true, text := some ("METER: 1245.8".toList), confidence := some 58 }
  | .adaptive => { success := true, text := some ("METER: 1245.8".toList), confidence := some 59 }

/-- A user state already at the attempt cap. -/
def stateAtCap : VerificationState :=
  { sessionId := 1, type := .start, attemptCount := 3 }

/-- A successful high-confidence OCR extraction. -/
def okExtract : ExtractKwhResult :=
  { success := true, reading := some 1500, confidence := some 90 }

/-- A failed OCR extraction. -/
def failedExtract : ExtractKwhResult := { success := false }

/-- A Vision response with one aggregate block and two tokens. -/
def sampleDetections : List TextDetection :=
  [{ description := "METER: 1245.8 KWH".toList, quadBox := true },
   { description := "1245.8".toList, quadBox := true },
   { description := "KWH".toList, quadBox := false }]

/- ======================= Theorems ======================== -/

/-- Helper: a fully in-range rational passes `validateReading`. -/
theorem validateReading_eval_true {q : ℚ} (h1 : ¬ q ≤ 0) (h2 : ¬ q < VALID_RANGE_min)
    (h3 : ¬ VALID_RANGE_max < q) (h4 : decimalPlacesLe q MAX_DECIMAL_PLACES) :
    validateReading (some q) = { valid := true } := by
  rw [validateReading, if_neg h1, if_neg h2, if_neg h3, if_pos h4]

/-- C1: `validateReading(r)` returns `valid = true` exactly when `r` is a
finite number that is positive, at least the configured minimum 10, at
most the configured maximum 999999, and has at most 3 decimal places; in
every other case it returns `valid = false` together with an error. -/
theorem validateReading_valid_iff (r : Option ℚ) :
    ((validateReading r).valid = true ↔
      ∃ q : ℚ, r = some q ∧ 0 < q ∧ VALID_RANGE_min ≤ q ∧ q ≤ VALID_RANGE_max ∧
        decimalPlacesLe q MAX_DECIMAL_PLACES)
    ∧ ((validateReading r).valid = false → (validateReading r).error ≠ none) := by
  constructor
  · cases r with
    | none => simp [validateReading]
    | some q =>
      simp only [validateReading]
      split_ifs with h1 h2 h3 h4
      · refine iff_of_false (by simp) ?_
        rintro ⟨q', hq, hpos, _, _, _⟩
        injection hq with hq
        subst hq
        linarith
      · refine iff_of_false (by simp) ?_
        rintro ⟨q', hq, _, hmin, _, _⟩
        injection hq with hq
        subst hq
        linarith
      · refine iff_of_false (by simp) ?_
        rintro ⟨q', hq, _, _, hmax, _⟩
        injection hq with hq
        subst hq
        linarith
      · exact iff_of_true (by simp)
          ⟨q, rfl, lt_of_not_le h1, not_lt.mp h2, not_lt.mp h3, h4⟩
      · refine iff_of_false (by simp) ?_
        rintro ⟨q', hq, _, _, _, hdec⟩
        injection hq with hq
        subst hq
        exact h4 hdec
  · cases r with
    | none => simp [validateReading]
    | some q =>
      simp only [validateReading]
      split_ifs <;> simp

/-- C2: for readings that both pass `validateReading`,
`calculateConsumption(start, end)` succeeds exactly when `end > start` and
the difference lies in `[0.1, 200]`; on success the consumption is the
difference rounded to two decimal places; `end ≤ start` yields the
end-must-exceed-start error (in particular on `(100, 90)`); and a reading
that fails validation propagates that reading's error. -/
theorem calculateConsumption_spec (s e : ℚ)
    (hs : (validateReading (some s)).valid = true)
    (he : (validateReading (some e)).valid = true) :
    ((calculateConsumption (some s) (some e)).valid = true ↔
      s < e ∧ CONSUMPTION_RANGE_min ≤ e - s ∧ e - s ≤ CONSUMPTION_RANGE_max)
    ∧ ((calculateConsumption (some s) (some e)).valid = true →
      (calculateConsumption (some s) (some e)).consumption = some (roundTo2 (e - s)))
    ∧ (e ≤ s → calculateConsumption (some s) (some e) =
      { valid := false, error := some "End reading must be greater than start reading" })
    ∧ (calculateConsumption (some 100) (some 90)).error =
      some "End reading must be greater than start reading"
    ∧ (∀ s2 e2 : Option ℚ, (validateReading s2).valid = false →
      (calculateConsumption s2 e2).error =
        some ("Start reading: " ++ (validateReading s2).error.getD ""))
    ∧ (∀ s2 e2 : Option ℚ, (validateReading s2).valid = true →
      (validateReading e2).valid = false →
      (calculateConsumption s2 e2).error =
        some ("End reading: " ++ (validateReading e2).error.getD "")) := by
  have hmain : calculateConsumption (some s) (some e) =
      (if e ≤ s then
        { valid := false, error := some "End reading must be greater than start reading" }
      else if e - s < CONSUMPTION_RANGE_min then
        { valid := false, error := some "Consumption too low (< 0.1 kWh)" }
      else if CONSUMPTION_RANGE_max < e - s then
        { valid := false, error := some "Consumption too high (> 200 kWh)" }
      else { valid := true, consumption := some (roundTo2 (e - s)) }) := by
    simp [calculateConsumption, hs, he]
  refine ⟨?_, ?_, ?_, ?_, ?_, ?_⟩
  · rw [hmain]
    split_ifs with h1 h2 h3
    · exact iff_of_false (by simp) (by rintro ⟨hlt, -, -⟩; linarith)
    · exact iff_of_false (by simp) (by rintro ⟨-, hge, -⟩; linarith)
    · exact iff_of_false (by simp) (by rintro ⟨-, -, hle⟩; linarith)
    · exact iff_of_true (by simp)
        ⟨not_le.mp h1, not_lt.mp h2, not_lt.mp h3⟩
  · rw [hmain]
    split_ifs <;> simp
  · intro h1
    rw [hmain, if_pos h1]
  · have h100 : validateReading (some (100 : ℚ)) = { valid := true } := by
      apply validateReading_eval_true <;>
        norm_num [VALID_RANGE_min, VALID_RANGE_max, decimalPlacesLe, MAX_DECIMAL_PLACES]
    have h90 : validateReading (some (90 : ℚ)) = { valid := true } := by
      apply validateReading_eval_true <;>
        norm_num [VALID_RANGE_min, VALID_RANGE_max, decimalPlacesLe, MAX_DECIMAL_PLACES]
    norm_num [calculateConsumption, h100, h90]
  · intro s2 e2 hv
    simp [calculateConsumption, hv]
  · intro s2 e2 hv1 hv2
    simp [calculateConsumption, hv1, hv2]

/-- Witness for C2 at the concrete pair (100, 150). -/
theorem calculateConsumption_spec_witness :
    (calculateConsumption (some 100) (some 150)).valid = true := by
  have h100 : (validateReading (some (100 : ℚ))).valid = true := by
    rw [validateReading_eval_true] <;>
      norm_num [VALID_RANGE_min, VALID_RANGE_max, decimalPlacesLe, MAX_DECIMAL_PLACES]
  have h150 : (validateReading (some (150 : ℚ))).valid = true := by
    rw [validateReading_eval_true] <;>
      norm_num [VALID_RANGE_min, VALID_RANGE_max, decimalPlacesLe, MAX_DECIMAL_PLACES]
  exact (calculateConsumption_spec 100 150 h100 h150).1.mpr
    ⟨by norm_num, by norm_num [CONSUMPTION_RANGE_min], by norm_num [CONSUMPTION_RANGE_max]⟩

/-- C3 counterexample: the claim says the anchor-first stage returns a
reading only when one of the anchors `KWH`, `ENERGY:`, `METER:`,
`READING:` is adjacent to the number, and that an anchor-free text falls
through to the fallback scanner.  But in the first pattern
`(?:K?W?H?\s*[:\-=]?\s*)` every anchor component is optional, so the
anchored stage already matches the bare digit string "1234": it returns
1234.0 and the fallback enumeration is never consulted. -/
theorem anchorStage_counterexample :
    isInfixL ("KWH".toList) (cleanText ("1234".toList)) = false
    ∧ isInfixL ("ENERGY".toList) (cleanText ("1234".toList)) = false
    ∧ isInfixL ("METER".toList) (cleanText ("1234".toList)) = false
    ∧ isInfixL ("READING".toList) (cleanText ("1234".toList)) = false
    ∧ anchorLoop (kwhPatternCaptures (cleanText ("1234".toList))) = some 1234000
    ∧ extractReadingFromText ("1234".toList) = some 1234000 := by
  decide

/-- C3 (amended): the anchor components of the first two `kwhPatterns` are
optional, so the anchor-first stage returns the first in-range 2-6-digit
number (up to 3 decimals) matched by the patterns in order, whether or not
an anchor keyword is present; any in-range anchored-stage match
short-circuits the fallback scanner; and for the raw text
"METER: 1245.8 KWH" the stage (and hence extraction) returns 1245.8. -/
theorem extractReadingFromText_anchor_stage :
    (∀ text v, anchorLoop (kwhPatternCaptures (cleanText text)) = some v →
      extractReadingFromText text = some v)
    ∧ (∀ caps v, anchorLoop caps = some v → isValidReadingMilli v = true)
    ∧ anchorLoop (kwhPatternCaptures (cleanText ("METER: 1245.8 KWH".toList))) = some 1245800
    ∧ extractReadingFromText ("METER: 1245.8 KWH".toList) = some 1245800
    ∧ (extractReadingFromText ("METER: 1245.8 KWH".toList)).map milliToQ =
      some ((1245.8 : ℚ)) := by
  refine ⟨?_, ?_, by decide, by decide, ?_⟩
  · intro text v h
    simp only [extractReadingFromText]
    rw [h]
  · intro caps v h
    induction caps with
    | nil => cases h
    | cons c rest ih =>
      cases c with
      | none => exact ih h
      | some p =>
        obtain ⟨ds, fs⟩ := p
        simp only [anchorLoop] at h
        split at h
        · injection h with h1
          subst h1
          assumption
        · exact ih h
  · have hv : extractReadingFromText ("METER: 1245.8 KWH".toList) = some 1245800 := by decide
    rw [hv]
    norm_num [milliToQ]

/-- Witness for the amended C3 short-circuit on a concrete anchored text. -/
theorem extractReadingFromText_anchor_stage_witness :
    extractReadingFromText ("KWH: 777.5".toList) = some 777500 :=
  extractReadingFromText_anchor_stage.1 ("KWH: 777.5".toList) 777500 (by decide)

/-- C8: candidate extraction is deterministic, and ranking orders the
surviving candidates by descending score with ties broken by descending
numeric value (`rankLe`): the ranked list is a permutation of the
candidates, it is sorted under `rankLe`, and the selected head candidate
dominates every extracted candidate. -/
theorem rankCandidates_spec (text : List Char) :
    (extractReadingFromText text = extractReadingFromText text)
    ∧ (∀ cands : List Candidate, (rankCandidates cands).Perm cands)
    ∧ (∀ cands : List Candidate, (rankCandidates cands).Pairwise rankLe)
    ∧ (∀ (cands : List Candidate) (best : Candidate) (rest : List Candidate),
      rankCandidates cands = best :: rest → ∀ c ∈ cands, rankLe best c) := by
  refine ⟨rfl, ?_, ?_, ?_⟩
  · intro cands
    exact List.perm_insertionSort rankLe cands
  · intro cands
    exact List.sorted_insertionSort rankLe cands
  · intro cands best rest hr c hc
    have hperm := List.perm_insertionSort rankLe cands
    have hsorted := List.sorted_insertionSort rankLe cands
    rw [show cands.insertionSort rankLe = rankCandidates cands from rfl, hr] at hperm hsorted
    have hmem : c ∈ best :: rest := hperm.mem_iff.mpr hc
    rcases List.mem_cons.mp hmem with hbc | hmem2
    · subst hbc
      unfold rankLe
      omega
    · exact (List.pairwise_cons.mp hsorted).1 c hmem2

/-- Witness for C8 on the concrete cleaned text "1500 2500": two
candidates tie at score 60 and the larger value 2500 is selected first. -/
theorem rankCandidates_spec_witness :
    rankLe (Candidate.mk 2500000 60 5 ("1500 2500".toList))
      (Candidate.mk 1500000 60 0 ("1500 2500".toList)) :=
  (rankCandidates_spec []).2.2.2
    (extractNumberCandidates (cleanText ("1500 2500".toList)))
    (Candidate.mk 2500000 60 5 ("1500 2500".toList))
    [Candidate.mk 1500000 60 0 ("1500 2500".toList)]
    (by decide)
    (Candidate.mk 1500000 60 0 ("1500 2500".toList))
    (by decide)

/-- Helper: the retry guard fires exactly for a present, nonzero
confidence below the acceptance threshold. -/
theorem lowConfRetry_iff (r : OCRAttempt) :
    lowConfRetry r = true ↔
      ∃ c, r.confidence = some c ∧ c ≠ 0 ∧ c < MIN_OCR_CONFIDENCE := by
  cases hr : r.confidence with
  | none => simp [lowConfRetry, hr]
  | some c => simp [lowConfRetry, hr]

/-- C4 counterexample: the claim says that a standard attempt with
confidence strictly below 60 — including confidence 0 when no text is
detected — triggers the aggressive strategy.  But the source guard is
`ocrResult.confidence && ocrResult.confidence < 60`, and the falsy
confidence 0 leaves it false: with a no-text standard attempt
(confidence 0 < 60) the ladder stops after the standard call and the
aggressive strategy is never tried. -/
theorem escalation_zero_confidence_counterexample :
    (ocrNoTextRun .standard).confidence = some 0
    ∧ (0 : ℚ) < MIN_OCR_CONFIDENCE
    ∧ escalationCalls ocrNoTextRun = [.standard]
    ∧ Strategy.aggressive ∉ escalationCalls ocrNoTextRun := by
  refine ⟨rfl, by norm_num [MIN_OCR_CONFIDENCE], by decide, by decide⟩

/-- C4 (amended): the aggressive strategy is tried exactly when the
standard attempt's confidence is present, nonzero and below the threshold
60; the adaptive-threshold strategy is tried exactly when the aggressive
attempt's confidence is, in addition, present, nonzero and below 60.  In
particular an attempt with confidence at or above the threshold — and
also one with absent or zero confidence — stops the ladder. -/
theorem escalation_policy (ocr : Strategy → OCRAttempt) :
    (Strategy.aggressive ∈ escalationCalls ocr ↔
      ∃ c, (ocr .standard).confidence = some c ∧ c ≠ 0 ∧ c < MIN_OCR_CONFIDENCE)
    ∧ (Strategy.adaptive ∈ escalationCalls ocr ↔
      ((∃ c, (ocr .standard).confidence = some c ∧ c ≠ 0 ∧ c < MIN_OCR_CONFIDENCE)
        ∧ (∃ c, (ocr .aggressive).confidence = some c ∧ c ≠ 0 ∧ c < MIN_OCR_CONFIDENCE))) := by
  constructor
  · by_cases h1 : lowConfRetry (ocr .standard) = true
    · by_cases h2 : lowConfRetry (ocr .aggressive) = true
      · exact iff_of_true (by simp [escalationCalls, h1, h2]) ((lowConfRetry_iff _).mp h1)
      · exact iff_of_true
          (by simp [escalationCalls, h1, h2])
          ((lowConfRetry_iff _).mp h1)
    · refine iff_of_false (by simp [escalationCalls, h1]) ?_
      intro hx
      exact h1 ((lowConfRetry_iff _).mpr hx)
  · by_cases h1 : lowConfRetry (ocr .standard) = true
    · by_cases h2 : lowConfRetry (ocr .aggressive) = true
      · exact iff_of_true (by simp [escalationCalls, h1, h2])
          ⟨(lowConfRetry_iff _).mp h1, (lowConfRetry_iff _).mp h2⟩
      · refine iff_of_false
          (by simp [escalationCalls, h1, h2]) ?_
        rintro ⟨-, hx⟩
        exact h2 ((lowConfRetry_iff _).mpr hx)
    · refine iff_of_false (by simp [escalationCalls, h1]) ?_
      rintro ⟨hx, -⟩
      exact h1 ((lowConfRetry_iff _).mpr hx)

/-- C5: every submission issues at most 3 OCR calls; with the confidence
sequence [55, 58, 59] across the three strategies (all below threshold
60) the ladder performs the three calls in escalation order, exactly
once each, and no 4th call exists. -/
theorem escalation_bounded (ocr : Strategy → OCRAttempt)
    (h1 : (ocr .standard).confidence = some 55)
    (h2 : (ocr .aggressive).confidence = some 58)
    (h3 : (ocr .adaptive).confidence = some 59) :
    (∀ f : Strategy → OCRAttempt, (escalationCalls f).length ≤ 3)
    ∧ escalationCalls ocr = [.standard, .aggressive, .adaptive]
    ∧ (escalationCalls ocr).length = 3
    ∧ (escalationCalls ocr).Nodup := by
  have hl1 : lowConfRetry (ocr .standard) = true :=
    (lowConfRetry_iff _).mpr ⟨55, h1, by norm_num, by norm_num [MIN_OCR_CONFIDENCE]⟩
  have hl2 : lowConfRetry (ocr .aggressive) = true :=
    (lowConfRetry_iff _).mpr ⟨58, h2, by norm_num, by norm_num [MIN_OCR_CONFIDENCE]⟩
  refine ⟨?_, ?_, ?_, ?_⟩
  · intro f
    simp only [escalationCalls]
    split_ifs <;> simp
  · simp [escalationCalls, hl1, hl2]
  · simp [escalationCalls, hl1, hl2]
  · simp [escalationCalls, hl1, hl2]

/-- Witness for C5 on the concrete run with confidences 55, 58, 59. -/
theorem escalation_bounded_witness :
    escalationCalls ocrLowRun = [.standard, .aggressive, .adaptive] :=
  (escalation_bounded ocrLowRun rfl rfl rfl).2.1

/-- C6 counterexample: the claim says that once `attemptCount` has reached
`maxAttempts` (3), the next photo submission routes to manual entry
without issuing an OCR call.  But `handleStartPhoto` always invokes
`ocrProcessor.extractKwhReading` before any attempt-count check: for a
state at the cap, a submission whose OCR succeeds with high confidence is
processed and even routed to the confirmation step. -/
theorem handleStartPhoto_at_cap_counterexample :
    GOOGLE_VISION_retry_maxAttempts ≤ stateAtCap.attemptCount
    ∧ (handleStartPhoto (some stateAtCap) okExtract).ocrCalled = true
    ∧ (handleStartPhoto (some stateAtCap) okExtract).route = PhotoRoute.awaitingConfirmation := by
  decide

/-- C6 (amended): for a user state at or past the attempt cap, the next
photo submission still issues an OCR call; it routes to the manual-entry
fallback only when that OCR attempt fails (no success, falsy reading) or
comes back with confidence below the threshold. -/
theorem handleStartPhoto_at_cap (st : VerificationState) (ocrResult : ExtractKwhResult)
    (ht : st.type = VKind.start)
    (ha : GOOGLE_VISION_retry_maxAttempts ≤ st.attemptCount) :
    (handleStartPhoto (some st) ocrResult).ocrCalled = true
    ∧ ((ocrResult.success = false ∨ jsFalsyNum ocrResult.reading = true ∨
        ocrResult.confidence.getD 0 < MIN_OCR_CONFIDENCE) →
      (handleStartPhoto (some st) ocrResult).route = PhotoRoute.manualFallback) := by
  have hcap : GOOGLE_VISION_retry_maxAttempts ≤ st.attemptCount + 1 := Nat.le_succ_of_le ha
  constructor
  · simp only [handleStartPhoto, ht]
    split_ifs <;> simp_all
  · intro hfail
    simp only [handleStartPhoto, ht]
    split_ifs with hty h1 h2 h3 h4 h5 <;> first
      | rfl
      | (exact absurd rfl hty)
      | (exact absurd hcap (by assumption))
      | (exact absurd hfail (by tauto))

/-- Witness for the amended C6: a state at the cap with a failed OCR
attempt is routed to manual entry, after the OCR call. -/
theorem handleStartPhoto_at_cap_witness :
    (handleStartPhoto (some stateAtCap) failedExtract).ocrCalled = true
    ∧ (handleStartPhoto (some stateAtCap) failedExtract).route = PhotoRoute.manualFallback :=
  ⟨(handleStartPhoto_at_cap stateAtCap failedExtract rfl (by decide)).1,
   (handleStartPhoto_at_cap stateAtCap failedExtract rfl (by decide)).2 (Or.inl rfl)⟩

/-- C9 counterexample: the claim says `attemptCount` is incremented by
exactly 1 on every submission, whether the submission is a photo or a
manual text entry.  But `handleManualEntry` accepts a valid manual reading
without touching the counter: starting from a fresh state
(`attemptCount = 0`), an accepted manual entry leaves `attemptCount = 0`,
not 1. -/
theorem handleManualEntry_attemptCount_counterexample :
    (initiateStartVerification 1).attemptCount = 0
    ∧ (handleManualEntry (some (initiateStartVerification 1)) (some 1500) true).2 = true
    ∧ ((handleManualEntry (some (initiateStartVerification 1)) (some 1500) true).1.map
        VerificationState.attemptCount) = some 0 := by
  decide

/-- C9 (amended): `attemptCount` starts at 0 when the state is created and
is incremented by exactly 1 on every photo submission processed for the
user, while a manual text entry leaves it unchanged. -/
theorem attemptCount_transitions (sessionId : ℕ) (st : VerificationState)
    (ocrResult : ExtractKwhResult) (reading : Option ℚ) (consumptionValid : Bool)
    (ht : st.type = VKind.start) :
    (initiateStartVerification sessionId).attemptCount = 0
    ∧ ((handleStartPhoto (some st) ocrResult).state.map VerificationState.attemptCount
      = some (st.attemptCount + 1))
    ∧ ((handleManualEntry (some st) reading consumptionValid).1.map
        VerificationState.attemptCount = some st.attemptCount) := by
  refine ⟨rfl, ?_, ?_⟩
  · simp only [handleStartPhoto, ht]
    split_ifs <;> simp_all
  · simp only [handleManualEntry]
    split_ifs <;> simp

/-- Witness for the amended C9 on a fresh state and a failed photo. -/
theorem attemptCount_transitions_witness :
    ((handleStartPhoto (some (initiateStartVerification 7)) failedExtract).state.map
      VerificationState.attemptCount) = some 1 :=
  (attemptCount_transitions 7 (initiateStartVerification 7) failedExtract none false rfl).2.1

/-- Helper: bounds on the per-token confidence. -/
theorem wordConfidence_bounds (d : TextDetection) :
    70 ≤ wordConfidence d ∧ wordConfidence d ≤ 100 := by
  unfold wordConfidence
  split_ifs <;> norm_num

/-- Helper: bounds on the summed token confidences. -/
theorem sum_wordConfidence_bounds (l : List TextDetection) :
    (70 : ℚ) * l.length ≤ (l.map wordConfidence).sum
    ∧ (l.map wordConfidence).sum ≤ (100 : ℚ) * l.length := by
  induction l with
  | nil => simp
  | cons d rest ih =>
    have hb := wordConfidence_bounds d
    simp only [List.map_cons, List.sum_cons, List.length_cons]
    push_cast
    constructor <;> nlinarith [ih.1, ih.2, hb.1, hb.2]

/-- Helper: the aggregated average confidence lies in [70, 100]. -/
theorem avgConfidence_bounds (tokens : List TextDetection) :
    70 ≤ avgConfidence tokens ∧ avgConfidence tokens ≤ 100 := by
  unfold avgConfidence
  split_ifs with h
  · have hs := sum_wordConfidence_bounds tokens
    have hn : (0 : ℚ) < tokens.length := by exact_mod_cast h
    constructor
    · rw [le_div_iff₀ hn]
      linarith [hs.1]
    · rw [div_le_iff₀ hn]
      linarith [hs.2]
  · norm_num

/-- C10: whenever the Vision response detected text, every per-token
confidence lies in [70, 100], hence the aggregated average (defaulting to
70 with zero tokens) lies in [70, 100] as well; it therefore never drops
below half the minimum acceptance threshold (30), and the
"Very low confidence OCR result" hard-failure branch of `performOCR` is
unreachable. -/
theorem performOCR_confidence_floor (d : TextDetection)
    (tokens detections : List TextDetection) (hne : detections ≠ []) :
    (70 ≤ wordConfidence d ∧ wordConfidence d ≤ 100)
    ∧ (70 ≤ avgConfidence tokens ∧ avgConfidence tokens ≤ 100)
    ∧ MIN_OCR_CONFIDENCE * (1 / 2) ≤ avgConfidence tokens
    ∧ (∀ c t, performOCR detections ≠ PerformOCROutcome.veryLowConfidence c t) := by
  refine ⟨wordConfidence_bounds d, avgConfidence_bounds tokens, ?_, ?_⟩
  · have h70 := (avgConfidence_bounds tokens).1
    norm_num [MIN_OCR_CONFIDENCE]
    linarith
  · intro c t
    match detections, hne with
    | d0 :: toks, _ =>
      have h30 : ¬ (avgConfidence toks < MIN_OCR_CONFIDENCE * (1 / 2)) := by
        have h70 := (avgConfidence_bounds toks).1
        norm_num [MIN_OCR_CONFIDENCE]
        linarith
      simp only [performOCR]
      rw [if_neg h30]
      simp

/-- C7: context validation follows contract C exactly.  When the elapsed
duration is under 1 minute, the wrapper skips context validation entirely
and accepts the consumption on reading-pair validity alone.  Otherwise
(duration at least 1 minute, positive charger power, any positive supplied
battery capacity) `validateConsumptionWithContext` fails exactly when the
consumption exceeds 115% of the theoretical maximum
`durationHours * chargerPowerKw * 0.95` or exceeds 105% of the supplied
battery capacity, and on success its warnings are exactly: the power
warning when the average power exceeds 98% of the charger's rated power,
and the efficiency warning when
`consumption / (durationHours * chargerPowerKw)` is below 60%. -/
theorem validateConsumptionWithContext_spec
    (consumption durationMinutes chargerPowerKw : ℚ) (battery : Option ℚ)
    (startR endR : ℚ) (dm : ℤ) (mp : Option ℚ)
    (hd : 1 ≤ durationMinutes) (hp : 0 < chargerPowerKw)
    (hb : ∀ b ∈ battery, 0 < b) :
    ((dm < 1 → (calculateConsumption (some startR) (some endR)).valid = true →
      (validateConsumption (some startR) endR dm mp).isValid = true)
    ∧ ((validateConsumptionWithContext consumption durationMinutes chargerPowerKw
        battery).valid = false ↔
      (durationMinutes / 60 * chargerPowerKw * (95 / 100)) * (115 / 100) < consumption
        ∨ ∃ b, battery = some b ∧ b * (105 / 100) < consumption)
    ∧ ((validateConsumptionWithContext consumption durationMinutes chargerPowerKw
        battery).valid = true →
      (validateConsumptionWithContext consumption durationMinutes chargerPowerKw
        battery).warnings.getD [] =
        (if chargerPowerKw * (98 / 100) < consumption / (durationMinutes / 60)
          then [powerWarning] else [])
        ++ (if consumption / (durationMinutes / 60 * chargerPowerKw) * 100 < 60
          then [efficiencyWarning] else []))) := by
  refine ⟨?_, ?_, ?_⟩
  · intro hdm hcv
    simp [validateConsumption, hcv, hdm]
  · simp only [validateConsumptionWithContext]
    split_ifs with hA hB
    · refine iff_of_true (by simp) (Or.inl hA)
    · refine iff_of_true (by simp) ?_
      right
      unfold batteryExceeded at hB
      match hbat : battery with
      | some b =>
        simp only [Bool.and_eq_true, decide_eq_true_eq] at hB
        exact ⟨b, rfl, hB.2⟩
      | none =>
        simp at hB
    · refine iff_of_false (by simp) ?_
      rintro (hx | ⟨b, hbat, hx⟩)
      · exact hA hx
      · apply hB
        unfold batteryExceeded
        rw [hbat]
        have hbpos : 0 < b := hb b (hbat ▸ rfl)
        simp only [Bool.and_eq_true, decide_eq_true_eq]
        exact ⟨ne_of_gt hbpos, hx⟩
  · simp only [validateConsumptionWithContext]
    split_ifs with hA hB hw1 hw2 <;> intro hv <;> simp_all

/-- Witness for C7: the spec's own example (consumption 19 kWh over 30
minutes at 50 kW) is accepted with no warnings, and a sub-minute session
is accepted on reading-pair validity alone. -/
theorem validateConsumptionWithContext_spec_witness :
    (validateConsumptionWithContext 19 30 50 none).valid = true
    ∧ (validateConsumptionWithContext 19 30 50 none).warnings.getD [] = []
    ∧ (validateConsumption (some 100) 119 0 none).isValid = true := by
  have h := validateConsumptionWithContext_spec 19 30 50 none 100 119 0 none
    (by norm_num) (by norm_num) (by simp)
  have hvalid : (validateConsumptionWithContext 19 30 50 none).valid = true := by
    have hnot : ¬ (((30 : ℚ) / 60 * 50 * (95 / 100)) * (115 / 100) < 19
        ∨ ∃ b, (none : Option ℚ) = some b ∧ b * (105 / 100) < 19) := by
      rintro (hx | ⟨b, hbat, -⟩)
      · norm_num at hx
      · cases hbat
    cases hval : (validateConsumptionWithContext 19 30 50 none).valid
    · exact absurd (h.2.1.mp hval) hnot
    · rfl
  refine ⟨hvalid, ?_, ?_⟩
  · rw [h.2.2 hvalid]
    norm_num
  · apply h.1 (by norm_num)
    have h100 : validateReading (some (100 : ℚ)) = { valid := true } := by
      apply validateReading_eval_true <;>
        norm_num [VALID_RANGE_min, VALID_RANGE_max, decimalPlacesLe, MAX_DECIMAL_PLACES]
    have h119 : validateReading (some (119 : ℚ)) = { valid := true } := by
      apply validateReading_eval_true <;>
        norm_num [VALID_RANGE_min, VALID_RANGE_max, decimalPlacesLe, MAX_DECIMAL_PLACES]
    norm_num [calculateConsumption, h100, h119, CONSUMPTION_RANGE_min, CONSUMPTION_RANGE_max]

/-- Witness for C10 on a concrete Vision response. -/
theorem performOCR_confidence_floor_witness :
    performOCR sampleDetections ≠ PerformOCROutcome.veryLowConfidence 0 [] :=
  (performOCR_confidence_floor { description := [], quadBox := false } []
    sampleDetections (by simp [sampleDetections])).2.2.2 0 []

/-- Witness for C1 at the concrete reading 1500. -/
theorem validateReading_valid_iff_witness :
    (validateReading (some 1500)).valid = true :=
  (validateReading_valid_iff (some 1500)).1.mpr
    ⟨1500, rfl, by norm_num, by norm_num [VALID_RANGE_min], by norm_num [VALID_RANGE_max],
      by norm_num [decimalPlacesLe, MAX_DECIMAL_PLACES]⟩

/-- Witness for the amended C4 on the concrete low-confidence run. -/
theorem escalation_policy_witness :
    Strategy.aggressive ∈ escalationCalls ocrLowRun :=
  (escalation_policy ocrLowRun).1.mpr
    ⟨55, rfl, by norm_num, by norm_num [MIN_OCR_CONFIDENCE]⟩

end SharaSpot
